import Mathlib

/-!
Verification of the devfund_manager repository (devfund_manager.py,
multisig_op.py, monitor.py) against its natural-language specification.

The Python source is shallowly embedded below.  Machine integers are
modelled as Nat/Int (Python integers are unbounded, so no wraparound is
needed).  Python `int(x)` applied to a non-negative exact value truncates
toward zero, which coincides with floor; the Decimal computations in the
source are exact at the magnitudes reachable here (28 significant digits),
and the float products `x * 1.1`, `x * 1.5` are modelled by the exact
rationals 11/10 and 3/2 with truncating division, which is the value the
source computes for the integer operands arising in these code paths.
Fallible operations return Option; I/O results (HTTP fetches, subprocess
outcomes, the current date/hour, the emergency-stop sentinel) are passed
in explicitly as parameters.
-/

namespace DevFund

/-- Configuration fields of devfund_manager.py (class Config) that the
distribution arithmetic reads.  Counts, thresholds, percentages and the
fee rate are non-negative integers in the source defaults and after
validation. -/
structure Config where
  threshold_utxo : Nat
  threshold_balance_sats : Nat
  minimum_balance_sats : Nat
  liquidity_percent : Nat
  dev_percent : Nat
  marketing_percent : Nat
  min_distribution_amount : Nat
  fee_rate : Nat
deriving DecidableEq

/-- Default values from the Config dataclass in devfund_manager.py. -/
def defaultConfig : Config :=
  { threshold_utxo := 1
    threshold_balance_sats := 1000000000
    minimum_balance_sats := 1000000000
    liquidity_percent := 50
    dev_percent := 25
    marketing_percent := 25
    min_distribution_amount := 10000000
    fee_rate := 100 }

/-- DevFundManager.estimate_transaction_size: base 10 vB, 295 vB per
P2SH multisig input, 34 vB per P2PKH output, then a 10 percent buffer
applied as Python int(estimated_size * 1.1), i.e. truncation. -/
def estimate_transaction_size (num_inputs num_outputs : Nat) : Nat :=
  let base_size := 10
  let input_size := num_inputs * 295
  let output_size := num_outputs * 34
  let estimated_size := base_size + input_size + output_size
  estimated_size * 11 / 10

/-- fee_sats in DevFundManager.calculate_distribution: fee rate times the
estimated size of a 1-input / 3-output transaction. -/
def fee_sats (cfg : Config) : Nat :=
  cfg.fee_rate * estimate_transaction_size 1 3

/-- fee_reserve in DevFundManager.calculate_distribution: Python
int(fee_sats * 1.5), i.e. truncating multiplication by 3/2. -/
def fee_reserve (cfg : Config) : Nat :=
  fee_sats cfg * 3 / 2

/-- total_reserve in DevFundManager.calculate_distribution. -/
def total_reserve (cfg : Config) : Nat :=
  cfg.minimum_balance_sats + fee_reserve cfg

/-- DevFundManager.calculate_distribution.  Returns none where the source
raises ValueError (insufficient balance), otherwise the three amounts
(liquidity, dev, marketing).  The three percentage shares are truncating
divisions of the distributable amount, and the rounding remainder is added
to the dev amount.  Amounts are Int because the source works with Python
integers; on the reachable branch the distributable amount is positive, so
the Euclidean division used here agrees with Python int(Decimal(...)). -/
def calculate_distribution (cfg : Config) (total_balance : Int) :
    Option (Int × Int × Int) :=
  if total_balance ≤ (total_reserve cfg : Int) then none
  else
    let distributable : Int := total_balance - (total_reserve cfg : Int)
    let liquidity_amount := distributable * (cfg.liquidity_percent : Int) / 100
    let dev_amount := distributable * (cfg.dev_percent : Int) / 100
    let marketing_amount := distributable * (cfg.marketing_percent : Int) / 100
    let remainder := distributable - (liquidity_amount + dev_amount + marketing_amount)
    some (liquidity_amount, dev_amount + remainder, marketing_amount)

/-- DevFundManager.should_distribute.  The address-info fetch either
fails (none) or yields a UTXO count and a balance; on failure the source
catches APIError and returns (False, 0, 0). -/
def should_distribute (cfg : Config) (fetch : Option (Nat × Int)) :
    Bool × Nat × Int :=
  match fetch with
  | none => (false, 0, 0)
  | some (utxo_count, balance) =>
    let utxo_met := decide (cfg.threshold_utxo ≤ utxo_count)
    let balance_met := decide ((cfg.threshold_balance_sats : Int) ≤ balance)
    let distributable_check :=
      decide (((cfg.minimum_balance_sats : Int) + (cfg.min_distribution_amount : Int)) < balance)
    (utxo_met && balance_met && distributable_check, utxo_count, balance)

/-- Configuration with fee rate 1, used to exhibit the parity-dependent
difference between truncating and ceiling fee reserves. -/
def cfg_fee1 : Config :=
  { defaultConfig with fee_rate := 1 }

end DevFund

namespace DevFund

/-- C6.  The spec claims estimate_transaction_size applies the 10 percent
buffer with a ceiling, giving 448 vB for 1 input and 3 outputs.  The
source truncates: int(407 * 1.1) = 447, not ceil(407 * 1.1) = 448. -/
theorem c6_estimate_size_not_ceil :
    estimate_transaction_size 1 3 = 447 ∧
    ((10 + 1 * 295 + 3 * 34) * 11 + 9) / 10 = 448 := by
  decide

/-- C6 amended.  For all input and output counts,
estimate_transaction_size equals the floor (not the ceiling) of
(10 + inputs * 295 + outputs * 34) * 11 / 10; in particular it is 447 for
1 input and 3 outputs. -/
theorem c6_estimate_size_floor (i o : Nat) :
    10 * estimate_transaction_size i o ≤ (10 + i * 295 + o * 34) * 11 ∧
    (10 + i * 295 + o * 34) * 11 < 10 * (estimate_transaction_size i o + 1) ∧
    estimate_transaction_size 1 3 = 447 := by
  simp only [estimate_transaction_size]
  refine ⟨?_, ?_, by decide⟩ <;> omega

/-- C6 amended, evaluated at 1 input and 3 outputs. -/
theorem c6_estimate_size_floor_witness :
    10 * estimate_transaction_size 1 3 ≤ (10 + 1 * 295 + 3 * 34) * 11 ∧
    (10 + 1 * 295 + 3 * 34) * 11 < 10 * (estimate_transaction_size 1 3 + 1) ∧
    estimate_transaction_size 1 3 = 447 :=
  c6_estimate_size_floor 1 3

/-- C2.  The spec claims fee_reserve = ceil(fee * 1.5).  With fee rate 1
the fee is 447 sats (odd), the source computes int(447 * 1.5) = 670 while
the claimed ceiling is 671; consequently at balance
minimum_balance + 671 the source succeeds although the claim predicts
failure (balance ≤ minimum_balance + claimed reserve). -/
theorem c2_fee_reserve_not_ceil :
    fee_reserve cfg_fee1 = 670 ∧
    (fee_sats cfg_fee1 * 3 + 1) / 2 = 671 ∧
    calculate_distribution cfg_fee1 1000000671 ≠ none := by
  refine ⟨by decide, by decide, ?_⟩
  intro h
  rw [show calculate_distribution cfg_fee1 1000000671 = some (0, 1, 0) from by decide] at h
  exact Option.noConfusion h

/-- C2 amended.  calculate_distribution fails (InsufficientBalance)
exactly when the balance is at most minimum_balance plus the truncated
reserve int(fee * 1.5) = 3 * fee / 2 rounded down, where
fee = fee_rate * estimate_transaction_size 1 3; for every larger balance
it succeeds. -/
theorem c2_insufficient_balance_iff (cfg : Config) (b : Int) :
    calculate_distribution cfg b = none ↔
      b ≤ (cfg.minimum_balance_sats : Int) +
        ((cfg.fee_rate * estimate_transaction_size 1 3) * 3 / 2 : Nat) := by
  unfold calculate_distribution
  split_ifs with h
  · simpa [total_reserve, fee_reserve, fee_sats] using h
  · simp only [reduceCtorEq, false_iff]
    push_neg
    push_neg at h
    simpa [total_reserve, fee_reserve, fee_sats] using h

/-- C2 amended, evaluated at the default configuration and two concrete
balances, one on each side of the threshold. -/
theorem c2_insufficient_balance_iff_witness :
    (calculate_distribution defaultConfig 1000067050 = none ↔
      (1000067050 : Int) ≤ (defaultConfig.minimum_balance_sats : Int) +
        ((defaultConfig.fee_rate * estimate_transaction_size 1 3) * 3 / 2 : Nat)) ∧
    (calculate_distribution defaultConfig 1000067051 = none ↔
      (1000067051 : Int) ≤ (defaultConfig.minimum_balance_sats : Int) +
        ((defaultConfig.fee_rate * estimate_transaction_size 1 3) * 3 / 2 : Nat)) :=
  ⟨c2_insufficient_balance_iff defaultConfig 1000067050,
   c2_insufficient_balance_iff defaultConfig 1000067051⟩

/-- C1.  For every balance strictly above the total reserve and every
configuration whose percentages sum to 100, calculate_distribution
returns three non-negative amounts summing exactly to
balance - minimum_balance - fee_reserve; the liquidity and marketing
amounts are the truncated percentage shares of the distributable amount
and the dev amount is its truncated share plus the whole rounding
remainder. -/
theorem c1_calculate_distribution_correct (cfg : Config) (b : Int)
    (hsum : cfg.liquidity_percent + cfg.dev_percent + cfg.marketing_percent = 100)
    (hb : (total_reserve cfg : Int) < b) :
    ∃ l d m, calculate_distribution cfg b = some (l, d, m) ∧
      0 ≤ l ∧ 0 ≤ d ∧ 0 ≤ m ∧
      l + d + m = b - (cfg.minimum_balance_sats : Int) - (fee_reserve cfg : Int) ∧
      l = (b - (total_reserve cfg : Int)) * (cfg.liquidity_percent : Int) / 100 ∧
      m = (b - (total_reserve cfg : Int)) * (cfg.marketing_percent : Int) / 100 ∧
      d = (b - (total_reserve cfg : Int)) * (cfg.dev_percent : Int) / 100 +
          ((b - (total_reserve cfg : Int)) -
            ((b - (total_reserve cfg : Int)) * (cfg.liquidity_percent : Int) / 100 +
             (b - (total_reserve cfg : Int)) * (cfg.dev_percent : Int) / 100 +
             (b - (total_reserve cfg : Int)) * (cfg.marketing_percent : Int) / 100)) := by
  have hnle : ¬ b ≤ (total_reserve cfg : Int) := not_le.mpr hb
  simp only [calculate_distribution, if_neg hnle]
  set dist := b - (total_reserve cfg : Int) with hdistdef
  have hdist0 : 0 ≤ dist := by omega
  have h100 : (cfg.liquidity_percent : Int) + (cfg.dev_percent : Int) +
      (cfg.marketing_percent : Int) = 100 := by exact_mod_cast hsum
  have habc : dist * (cfg.liquidity_percent : Int) + dist * (cfg.dev_percent : Int) +
      dist * (cfg.marketing_percent : Int) = 100 * dist := by
    linear_combination dist * h100
  have hL : 0 ≤ dist * (cfg.liquidity_percent : Int) / 100 :=
    Int.ediv_nonneg (mul_nonneg hdist0 (Int.natCast_nonneg _)) (by norm_num)
  have hD : 0 ≤ dist * (cfg.dev_percent : Int) / 100 :=
    Int.ediv_nonneg (mul_nonneg hdist0 (Int.natCast_nonneg _)) (by norm_num)
  have hM : 0 ≤ dist * (cfg.marketing_percent : Int) / 100 :=
    Int.ediv_nonneg (mul_nonneg hdist0 (Int.natCast_nonneg _)) (by norm_num)
  have hle : dist * (cfg.liquidity_percent : Int) / 100 +
      dist * (cfg.dev_percent : Int) / 100 +
      dist * (cfg.marketing_percent : Int) / 100 ≤ dist := by omega
  refine ⟨_, _, _, rfl, hL, by omega, hM, ?_, rfl, rfl, rfl⟩
  have hres : dist = b - (cfg.minimum_balance_sats : Int) - (fee_reserve cfg : Int) := by
    rw [hdistdef]
    simp only [total_reserve]
    push_cast
    ring
  omega

/-- C1 evaluated at the default configuration and balance 1000067150,
which is 100 sats above the default total reserve. -/
theorem c1_calculate_distribution_correct_witness :
    ∃ l d m, calculate_distribution defaultConfig 1000067150 = some (l, d, m) ∧
      0 ≤ l ∧ 0 ≤ d ∧ 0 ≤ m ∧
      l + d + m = 1000067150 - (defaultConfig.minimum_balance_sats : Int) -
        (fee_reserve defaultConfig : Int) ∧
      l = (1000067150 - (total_reserve defaultConfig : Int)) *
        (defaultConfig.liquidity_percent : Int) / 100 ∧
      m = (1000067150 - (total_reserve defaultConfig : Int)) *
        (defaultConfig.marketing_percent : Int) / 100 ∧
      d = (1000067150 - (total_reserve defaultConfig : Int)) *
        (defaultConfig.dev_percent : Int) / 100 +
          ((1000067150 - (total_reserve defaultConfig : Int)) -
            ((1000067150 - (total_reserve defaultConfig : Int)) *
              (defaultConfig.liquidity_percent : Int) / 100 +
             (1000067150 - (total_reserve defaultConfig : Int)) *
              (defaultConfig.dev_percent : Int) / 100 +
             (1000067150 - (total_reserve defaultConfig : Int)) *
              (defaultConfig.marketing_percent : Int) / 100)) :=
  c1_calculate_distribution_correct defaultConfig 1000067150 (by decide) (by decide)

end DevFund

namespace Multisig

/-- Configuration fields of multisig_op.py (class MultisigConfig) that the
modelled operations read. -/
structure MultisigConfig where
  default_fee_rate : Nat
  min_relay_fee : Nat
  dust_threshold : Nat
deriving DecidableEq

/-- Default values from the MultisigConfig dataclass in multisig_op.py. -/
def defaultMultisigConfig : MultisigConfig :=
  { default_fee_rate := 10
    min_relay_fee := 1000
    dust_threshold := 546 }

/-- Descending insertion of a value into a list sorted in descending
order; used to model the sorted(..., reverse=True) call in
MultisigOperations.select_utxos.  UTXO values are in satoshis. -/
def insert_desc (u : Nat) : List Nat → List Nat
  | [] => [u]
  | v :: rest => if v ≤ u then u :: v :: rest else v :: insert_desc u rest

/-- Descending sort of the candidate UTXO values, modelling
sorted(utxos, key=amount, reverse=True). -/
def sort_desc : List Nat → List Nat
  | [] => []
  | u :: rest => insert_desc u (sort_desc rest)

/-- Accumulation loop of MultisigOperations.select_utxos: append UTXOs in
order, stopping as soon as the running total reaches
target_with_fee. -/
def select_go (target_with_fee : Nat) (selected : List Nat) (total_input_sats : Nat) :
    List Nat → List Nat × Nat
  | [] => (selected, total_input_sats)
  | utxo :: rest =>
    if target_with_fee ≤ total_input_sats + utxo then
      (selected ++ [utxo], total_input_sats + utxo)
    else select_go target_with_fee (selected ++ [utxo]) (total_input_sats + utxo) rest

/-- MultisigOperations.select_utxos over UTXO values in satoshis (the
source converts JKC Decimal amounts to satoshis before comparing).
Returns none where the source raises MultisigError (insufficient funds),
otherwise the selected values and their summed total. -/
def select_utxos (utxos : List Nat) (target_sats : Nat) (fee_reserve : Nat) :
    Option (List Nat × Nat) :=
  let target_with_fee := target_sats + fee_reserve
  let sorted_utxos := sort_desc utxos
  let r := select_go target_with_fee [] 0 sorted_utxos
  if r.2 < target_sats then none else some r

/-- MultisigOperations.validate_amount over the parsed decimal value of
the amount string: reject non-positive amounts, then reject amounts whose
truncated satoshi value int(amount * 10^8) is strictly below the dust
threshold.  For positive amounts the truncation equals the floor. -/
def validate_amount (cfg : MultisigConfig) (amount : ℚ) : Bool :=
  if amount ≤ 0 then false
  else if ⌊amount * 100000000⌋ < (cfg.dust_threshold : Int) then false
  else true

/-- The recipient-amount validation loop of
MultisigOperations.create_and_sign_transaction: validate_amount is
applied to every recipient amount, and the build raises MultisigError on
the first failure, so the build-level validation passes exactly when
every amount passes. -/
def validate_recipient_amounts (cfg : MultisigConfig) (amounts : List ℚ) : Bool :=
  amounts.all (fun amount => validate_amount cfg amount)

theorem insert_desc_sum (u : Nat) (l : List Nat) :
    (insert_desc u l).sum = u + l.sum := by
  induction l with
  | nil => simp [insert_desc]
  | cons v rest ih =>
    simp only [insert_desc]
    split_ifs
    · simp
    · simp [ih]
      omega

theorem sort_desc_sum (l : List Nat) : (sort_desc l).sum = l.sum := by
  induction l with
  | nil => rfl
  | cons u rest ih => simp [sort_desc, insert_desc_sum, ih]

theorem select_go_spec (twf : Nat) (l : List Nat) :
    ∀ (selected : List Nat) (total : Nat), total = selected.sum →
      (select_go twf selected total l).2 = (select_go twf selected total l).1.sum ∧
      (select_go twf selected total l).2 ≤ total + l.sum ∧
      ((select_go twf selected total l).2 = total + l.sum ∨
        twf ≤ (select_go twf selected total l).2) := by
  induction l with
  | nil => intro sel tot h; simp [select_go, h]
  | cons u rest ih =>
    intro sel tot h
    simp only [select_go]
    split_ifs with hc
    · refine ⟨by simp [h], by simp only [List.sum_cons]; omega, Or.inr hc⟩
    · obtain ⟨h1, h2, h3⟩ := ih (sel ++ [u]) (tot + u) (by simp [h])
      refine ⟨h1, by simp only [List.sum_cons]; omega, ?_⟩
      rcases h3 with h3 | h3
      · exact Or.inl (by simp only [List.sum_cons]; omega)
      · exact Or.inr h3

end Multisig

namespace Multisig

/-- C3.  select_utxos fails (InsufficientFunds) exactly when the sum of
all candidate UTXO values is below the target; on success the returned
total is at least the target and equals the sum of the selected values
(success is returned even when the total is below target plus the
advisory fee reserve). -/
theorem c3_select_utxos_spec (utxos : List Nat) (target_sats fee_reserve : Nat) :
    (select_utxos utxos target_sats fee_reserve = none ↔ utxos.sum < target_sats) ∧
    (∀ selected total,
      select_utxos utxos target_sats fee_reserve = some (selected, total) →
      target_sats ≤ total ∧ total = selected.sum) := by
  obtain ⟨h1, h2, h3⟩ :=
    select_go_spec (target_sats + fee_reserve) (sort_desc utxos) [] 0 rfl
  rw [sort_desc_sum] at h2 h3
  have hrw : select_utxos utxos target_sats fee_reserve =
      if (select_go (target_sats + fee_reserve) [] 0 (sort_desc utxos)).2 < target_sats
      then none
      else some (select_go (target_sats + fee_reserve) [] 0 (sort_desc utxos)) := rfl
  rw [hrw]
  by_cases hlt :
      (select_go (target_sats + fee_reserve) [] 0 (sort_desc utxos)).2 < target_sats
  · rw [if_pos hlt]
    refine ⟨⟨fun _ => by omega, fun _ => rfl⟩, fun sel tot h => Option.noConfusion h⟩
  · rw [if_neg hlt]
    refine ⟨⟨fun h => Option.noConfusion h, fun hsum => absurd (by omega :
      (select_go (target_sats + fee_reserve) [] 0 (sort_desc utxos)).2 < target_sats) hlt⟩, ?_⟩
    intro sel tot h
    have hp := Option.some.inj h
    have hs1 : (select_go (target_sats + fee_reserve) [] 0 (sort_desc utxos)).1 = sel := by
      rw [hp]
    have hs2 : (select_go (target_sats + fee_reserve) [] 0 (sort_desc utxos)).2 = tot := by
      rw [hp]
    exact ⟨by omega, by rw [← hs2, ← hs1]; exact h1⟩

/-- C3 evaluated on the candidate values [100, 50], target 120 and fee
reserve 10: selection succeeds with total 150 although 150 is below
target plus reserve minus nothing on the failure side, and the iff holds
at this input. -/
theorem c3_select_utxos_spec_witness :
    (select_utxos [100, 50] 120 10 = none ↔ [100, 50].sum < 120) ∧
    (120 ≤ 150 ∧ 150 = [100, 50].sum) :=
  ⟨(c3_select_utxos_spec [100, 50] 120 10).1,
   (c3_select_utxos_spec [100, 50] 120 10).2 [100, 50] 150 (by decide)⟩

/-- C9.  The spec claims an amount passes validation only when it
strictly exceeds the dust floor.  At exactly the dust threshold (546
sats, i.e. 0.00000546 JKC) the source accepts - the rejection test is
amount_sats < dust_threshold, not ≤ - and the transaction build's
recipient validation therefore accepts such a recipient as well. -/
theorem c9_dust_boundary_passes :
    validate_amount defaultMultisigConfig (546 / 100000000) = true ∧
    validate_recipient_amounts defaultMultisigConfig [546 / 100000000] = true ∧
    (⌊(546 / 100000000 : ℚ) * 100000000⌋ : Int) =
      (defaultMultisigConfig.dust_threshold : Int) := by
  have hpass : validate_amount defaultMultisigConfig (546 / 100000000) = true := by
    unfold validate_amount defaultMultisigConfig
    norm_num
  refine ⟨hpass, ?_, by norm_num [defaultMultisigConfig]⟩
  simp [validate_recipient_amounts, hpass]

/-- C9 amended.  validate_amount accepts exactly the positive amounts
whose truncated satoshi value is at least (not strictly above) the dust
threshold - amounts strictly below the threshold fail, amounts at or
above it pass - and the transaction build's recipient validation passes
exactly when every recipient amount satisfies this condition. -/
theorem c9_validate_amount_iff :
    (∀ (cfg : MultisigConfig) (q : ℚ), validate_amount cfg q = true ↔
      0 < q ∧ (cfg.dust_threshold : Int) ≤ ⌊q * 100000000⌋) ∧
    (∀ (cfg : MultisigConfig) (amounts : List ℚ),
      validate_recipient_amounts cfg amounts = true ↔
        ∀ q ∈ amounts, 0 < q ∧ (cfg.dust_threshold : Int) ≤ ⌊q * 100000000⌋) := by
  have base : ∀ (cfg : MultisigConfig) (q : ℚ), validate_amount cfg q = true ↔
      0 < q ∧ (cfg.dust_threshold : Int) ≤ ⌊q * 100000000⌋ := by
    intro cfg q
    unfold validate_amount
    split_ifs with h1 h2
    · exact ⟨fun h => by simp at h, fun hc => absurd h1 (not_le.mpr hc.1)⟩
    · exact ⟨fun h => by simp at h, fun hc => absurd h2 (not_lt.mpr hc.2)⟩
    · exact ⟨fun _ => ⟨not_le.mp h1, not_lt.mp h2⟩, fun _ => rfl⟩
  refine ⟨base, fun cfg amounts => ?_⟩
  unfold validate_recipient_amounts
  rw [List.all_eq_true]
  constructor
  · intro h q hq
    exact (base cfg q).mp (h q hq)
  · intro h q hq
    exact (base cfg q).mpr (h q hq)

/-- C9 amended, evaluated at 1 JKC against the default dust threshold,
both for a single amount and for a one-recipient build. -/
theorem c9_validate_amount_iff_witness :
    (validate_amount defaultMultisigConfig 1 = true ↔
      0 < (1 : ℚ) ∧ (defaultMultisigConfig.dust_threshold : Int) ≤ ⌊(1 : ℚ) * 100000000⌋) ∧
    (validate_recipient_amounts defaultMultisigConfig [1] = true ↔
      ∀ q ∈ ([1] : List ℚ),
        0 < q ∧ (defaultMultisigConfig.dust_threshold : Int) ≤ ⌊q * 100000000⌋) :=
  ⟨c9_validate_amount_iff.1 defaultMultisigConfig 1,
   c9_validate_amount_iff.2 defaultMultisigConfig [1]⟩

end Multisig

namespace Monitor

/-- Configuration fields of monitor.py (class MonitorConfig) that
run_once reads. -/
structure MonitorConfig where
  max_distributions_per_hour : Nat
  max_distributions_per_day : Nat
  consolidate_interval : Nat
deriving DecidableEq

/-- Default values from the MonitorConfig dataclass in monitor.py. -/
def defaultMonitorConfig : MonitorConfig :=
  { max_distributions_per_hour := 1
    max_distributions_per_day := 6
    consolidate_interval := 0 }

/-- The persisted monitor state dictionary of monitor.py (_load_state).
Calendar dates and date-hours are opaque identifiers (compared only for
equality in the source); timestamps are opaque values recorded on
distribution and consolidation.  Counters are Int because they are Python
integers and a loaded state file may carry arbitrary values. -/
structure MonitorState where
  last_distribution : Option Nat
  last_consolidation : Option Nat
  distributions_today : Int
  distributions_this_hour : Int
  last_check_date : Option Nat
  last_check_hour : Option Nat
  total_distributions : Int
  total_consolidations : Int
  last_balance : Int
  errors_count : Int
  last_txid : Option Nat
deriving DecidableEq

/-- The default_state dictionary in DevFundMonitor._load_state. -/
def default_state : MonitorState :=
  { last_distribution := none
    last_consolidation := none
    distributions_today := 0
    distributions_this_hour := 0
    last_check_date := none
    last_check_hour := none
    total_distributions := 0
    total_consolidations := 0
    last_balance := 0
    errors_count := 0
    last_txid := none }

/-- External inputs consumed by one invocation of
DevFundMonitor.run_once: the current calendar date and date-hour, a
timestamp for datetime.now().isoformat(), the presence of the
emergency-stop sentinel file, the outcome of the readiness dry-run, the
outcome and extracted transaction id of the execute subprocess, whether
an unexpected exception interrupts the try block (raise_early: before
the readiness check; otherwise between the consolidation step and the
error-count decay), and whether _should_consolidate finds the interval
elapsed. -/
structure CycleEnv where
  currentDate : Nat
  currentHour : Nat
  now : Nat
  emergencyStop : Bool
  ready : Bool
  dist_success : Bool
  dist_txid : Option Nat
  raises : Bool
  raise_early : Bool
  consolidateDue : Bool
deriving DecidableEq

/-- Result of one run_once invocation: the in-memory state afterwards,
whether _save_state was invoked before returning, whether the readiness
check (the balance-querying dry-run) was performed, and whether the
execute subprocess was launched (false when the rate caps skip it). -/
structure CycleResult where
  state : MonitorState
  saved : Bool
  queried : Bool
  dist_attempted : Bool
deriving DecidableEq

/-- DevFundMonitor._reset_daily_counters: zero the daily counter and move
the date watermark whenever the stored date differs from today. -/
def reset_daily_counters (currentDate : Nat) (st : MonitorState) : MonitorState :=
  if st.last_check_date = some currentDate then st
  else { st with distributions_today := 0, last_check_date := some currentDate }

/-- DevFundMonitor._reset_hourly_counters: zero the hourly counter and
move the hour watermark whenever the stored date-hour differs from the
current one. -/
def reset_hourly_counters (currentHour : Nat) (st : MonitorState) : MonitorState :=
  if st.last_check_hour = some currentHour then st
  else { st with distributions_this_hour := 0, last_check_hour := some currentHour }

/-- DevFundMonitor._execute_distribution: skip (without launching the
subprocess) when either rate cap is reached; on subprocess success record
the timestamp, bump the three distribution counters and store the
transaction id when one was extracted; on failure bump the error
counter.  Returns (success, new state, subprocess launched). -/
def execute_distribution (cfg : MonitorConfig) (env : CycleEnv) (st : MonitorState) :
    Bool × MonitorState × Bool :=
  if (cfg.max_distributions_per_hour : Int) ≤ st.distributions_this_hour then
    (false, st, false)
  else if (cfg.max_distributions_per_day : Int) ≤ st.distributions_today then
    (false, st, false)
  else if env.dist_success then
    let st := { st with
      last_distribution := some env.now
      distributions_today := st.distributions_today + 1
      distributions_this_hour := st.distributions_this_hour + 1
      total_distributions := st.total_distributions + 1 }
    match env.dist_txid with
    | some t => (true, { st with last_txid := some t }, true)
    | none => (true, st, true)
  else
    (false, { st with errors_count := st.errors_count + 1 }, true)

/-- DevFundMonitor.run_once.  The daily and hourly resets run first,
unconditionally.  If the emergency-stop sentinel is present the cycle
returns immediately: no readiness query, no save.  Otherwise the try
block runs the readiness check, the distribution, the optional
consolidation and the error-count decay max(0, errors_count - 1); an
unexpected exception instead increments the error counter; in both cases
the finally block saves the state. -/
def run_once (cfg : MonitorConfig) (env : CycleEnv) (st : MonitorState) : CycleResult :=
  let st := reset_daily_counters env.currentDate st
  let st := reset_hourly_counters env.currentHour st
  if env.emergencyStop then
    { state := st, saved := false, queried := false, dist_attempted := false }
  else if env.raises && env.raise_early then
    { state := { st with errors_count := st.errors_count + 1 }
      saved := true, queried := false, dist_attempted := false }
  else
    let r := if env.ready then execute_distribution cfg env st else (false, st, false)
    let st := r.2.1
    let attempted := r.2.2
    let st :=
      if 0 < cfg.consolidate_interval && env.consolidateDue then
        { st with
          last_consolidation := some env.now
          total_consolidations := st.total_consolidations + 1 }
      else st
    if env.raises then
      { state := { st with errors_count := st.errors_count + 1 }
        saved := true, queried := true, dist_attempted := attempted }
    else
      { state := { st with errors_count := max 0 (st.errors_count - 1) }
        saved := true, queried := true, dist_attempted := attempted }

end Monitor

namespace DevFund

/-- C8.  should_distribute returns ready exactly when the UTXO count
meets its threshold, the balance meets its threshold, and the balance
strictly exceeds minimum_balance + min_distribution_amount; a failed
address-info fetch yields (false, 0, 0) instead of an error. -/
theorem c8_should_distribute_spec :
    (∀ cfg : Config, should_distribute cfg none = (false, 0, 0)) ∧
    (∀ (cfg : Config) (utxo_count : Nat) (balance : Int),
      (should_distribute cfg (some (utxo_count, balance))).1 = true ↔
        (cfg.threshold_utxo ≤ utxo_count ∧
         (cfg.threshold_balance_sats : Int) ≤ balance ∧
         (cfg.minimum_balance_sats : Int) + (cfg.min_distribution_amount : Int) < balance)) := by
  refine ⟨fun cfg => rfl, fun cfg utxo_count balance => ?_⟩
  simp only [should_distribute, Bool.and_eq_true, decide_eq_true_eq]
  tauto

/-- C8 evaluated at the default configuration: a failing fetch, one
fetch below the balance threshold and one fetch meeting every
condition. -/
theorem c8_should_distribute_spec_witness :
    should_distribute defaultConfig none = (false, 0, 0) ∧
    ((should_distribute defaultConfig (some (2, 500))).1 = true ↔
      (defaultConfig.threshold_utxo ≤ 2 ∧
       (defaultConfig.threshold_balance_sats : Int) ≤ 500 ∧
       (defaultConfig.minimum_balance_sats : Int) +
         (defaultConfig.min_distribution_amount : Int) < 500)) ∧
    ((should_distribute defaultConfig (some (2, 1200000000))).1 = true ↔
      (defaultConfig.threshold_utxo ≤ 2 ∧
       (defaultConfig.threshold_balance_sats : Int) ≤ 1200000000 ∧
       (defaultConfig.minimum_balance_sats : Int) +
         (defaultConfig.min_distribution_amount : Int) < 1200000000)) :=
  ⟨c8_should_distribute_spec.1 defaultConfig,
   c8_should_distribute_spec.2 defaultConfig 2 500,
   c8_should_distribute_spec.2 defaultConfig 2 1200000000⟩

end DevFund

namespace Monitor

theorem reset_daily_counters_errors (d : Nat) (st : MonitorState) :
    (reset_daily_counters d st).errors_count = st.errors_count := by
  unfold reset_daily_counters
  split_ifs <;> rfl

theorem reset_hourly_counters_errors (h : Nat) (st : MonitorState) :
    (reset_hourly_counters h st).errors_count = st.errors_count := by
  unfold reset_hourly_counters
  split_ifs <;> rfl

theorem execute_distribution_errors_le (cfg : MonitorConfig) (env : CycleEnv)
    (st : MonitorState) :
    st.errors_count ≤ (execute_distribution cfg env st).2.1.errors_count := by
  unfold execute_distribution
  split_ifs
  · exact le_refl _
  · exact le_refl _
  · cases env.dist_txid <;> simp
  · simp

/-- State used in the counterexamples below: three distributions today,
one this hour, stale date and hour watermarks. -/
def stale_state : MonitorState :=
  { default_state with
    distributions_today := 3
    distributions_this_hour := 1
    last_check_date := some 5
    last_check_hour := some 50 }

/-- Cycle inputs with the emergency-stop sentinel present, one calendar
day after the watermarks of stale_state. -/
def stopped_env : CycleEnv :=
  { currentDate := 6
    currentHour := 60
    now := 1000
    emergencyStop := true
    ready := false
    dist_success := false
    dist_txid := none
    raises := false
    raise_early := false
    consolidateDue := false }

/-- C4.  The spec claims an emergency-stopped cycle leaves every field of
the monitor state unchanged.  The daily/hourly counter resets run before
the emergency-stop check: with a stale date watermark the cycle zeroes
distributions_today (3 becomes 0) and moves both watermarks even though
the sentinel is present. -/
theorem c4_emergency_stop_state_changes :
    stopped_env.emergencyStop = true ∧
    (run_once defaultMonitorConfig stopped_env stale_state).state.distributions_today ≠
      stale_state.distributions_today ∧
    (run_once defaultMonitorConfig stopped_env stale_state).state.last_check_date ≠
      stale_state.last_check_date := by
  decide

/-- C4 amended.  When the emergency-stop sentinel is present, the cycle
performs no readiness (balance) query, and provided the daily and hourly
watermarks are already current - so that the unconditional counter-reset
normalisation preceding the check does nothing - every field of the
monitor state is unchanged. -/
theorem c4_emergency_stop_frame (cfg : MonitorConfig) (env : CycleEnv) (st : MonitorState)
    (hstop : env.emergencyStop = true)
    (hdate : st.last_check_date = some env.currentDate)
    (hhour : st.last_check_hour = some env.currentHour) :
    (run_once cfg env st).state = st ∧ (run_once cfg env st).queried = false := by
  have hd : reset_daily_counters env.currentDate st = st := by
    unfold reset_daily_counters
    rw [if_pos hdate]
  have hh : reset_hourly_counters env.currentHour st = st := by
    unfold reset_hourly_counters
    rw [if_pos hhour]
  simp [run_once, hd, hh, hstop]

/-- C4 amended, evaluated on a concrete stopped cycle whose watermarks
are current. -/
theorem c4_emergency_stop_frame_witness :
    (run_once defaultMonitorConfig
        { stopped_env with currentDate := 5, currentHour := 50 } stale_state).state =
      stale_state ∧
    (run_once defaultMonitorConfig
        { stopped_env with currentDate := 5, currentHour := 50 } stale_state).queried =
      false :=
  c4_emergency_stop_frame defaultMonitorConfig
    { stopped_env with currentDate := 5, currentHour := 50 } stale_state rfl rfl rfl

/-- C5.  The spec claims run_once saves the state on every path,
including the emergency-stopped one.  On the emergency-stopped path the
source returns before entering the try/finally, so _save_state is not
invoked. -/
theorem c5_emergency_stop_skips_save :
    stopped_env.emergencyStop = true ∧
    (run_once defaultMonitorConfig stopped_env stale_state).saved = false := by
  decide

/-- C5 amended.  On every cycle in which the emergency-stop sentinel is
absent, run_once saves the state before returning, on normal completion
and on exception alike; only the emergency-stopped path returns without
saving. -/
theorem c5_save_on_non_emergency_paths (cfg : MonitorConfig) (env : CycleEnv)
    (st : MonitorState) (h : env.emergencyStop = false) :
    (run_once cfg env st).saved = true := by
  cases hr : env.raises <;> cases hre : env.raise_early <;>
    simp [run_once, h, hr, hre]

/-- C5 amended, evaluated on a concrete non-stopped cycle. -/
theorem c5_save_on_non_emergency_paths_witness :
    (run_once defaultMonitorConfig { stopped_env with emergencyStop := false }
      stale_state).saved = true :=
  c5_save_on_non_emergency_paths defaultMonitorConfig
    { stopped_env with emergencyStop := false } stale_state rfl

end Monitor

namespace Monitor

/-- State with one distribution recorded in the current hour and day,
and watermarks for date 5, hour 50. -/
def capped_state : MonitorState :=
  { default_state with
    distributions_this_hour := 1
    distributions_today := 1
    last_check_date := some 5
    last_check_hour := some 50 }

/-- Cycle inputs for a readiness-true cycle in the hour after
capped_state's hour watermark, on the same date. -/
def hour_rollover_env : CycleEnv :=
  { currentDate := 5
    currentHour := 51
    now := 99
    emergencyStop := false
    ready := true
    dist_success := true
    dist_txid := some 7
    raises := false
    raise_early := false
    consolidateDue := false }

/-- Cycle inputs for a readiness-true cycle whose date and hour match
capped_state's watermarks. -/
def same_hour_env : CycleEnv :=
  { hour_rollover_env with currentHour := 50 }

/-- C7.  The spec claims that a ready cycle with
distributions_this_hour at the hourly cap skips the distribution and
leaves the counters unchanged.  When the hour has rolled over since the
watermark, the hourly reset zeroes the counter before the cap check, so
the cycle distributes after all: the execute subprocess is launched and
total_distributions changes. -/
theorem c7_cap_counters_change :
    hour_rollover_env.ready = true ∧
    (defaultMonitorConfig.max_distributions_per_hour : Int) ≤
      capped_state.distributions_this_hour ∧
    (run_once defaultMonitorConfig hour_rollover_env capped_state).dist_attempted = true ∧
    (run_once defaultMonitorConfig hour_rollover_env capped_state).state.total_distributions ≠
      capped_state.total_distributions := by
  decide

/-- C7 amended.  In a ready, non-stopped cycle whose date and hour
watermarks are current (so no reset fires) and in which the hourly or
the daily cap is reached, the distribution subprocess is not launched
and the hourly, daily and total distribution counters and the
last-distribution timestamp are unchanged. -/
theorem c7_cap_skip_frame (cfg : MonitorConfig) (env : CycleEnv) (st : MonitorState)
    (hstop : env.emergencyStop = false)
    (hready : env.ready = true)
    (hdate : st.last_check_date = some env.currentDate)
    (hhour : st.last_check_hour = some env.currentHour)
    (hcap : (cfg.max_distributions_per_hour : Int) ≤ st.distributions_this_hour ∨
      (cfg.max_distributions_per_day : Int) ≤ st.distributions_today) :
    (run_once cfg env st).dist_attempted = false ∧
    (run_once cfg env st).state.distributions_this_hour = st.distributions_this_hour ∧
    (run_once cfg env st).state.distributions_today = st.distributions_today ∧
    (run_once cfg env st).state.total_distributions = st.total_distributions ∧
    (run_once cfg env st).state.last_distribution = st.last_distribution := by
  have hd : reset_daily_counters env.currentDate st = st := by
    unfold reset_daily_counters
    rw [if_pos hdate]
  have hh : reset_hourly_counters env.currentHour st = st := by
    unfold reset_hourly_counters
    rw [if_pos hhour]
  have hexec : execute_distribution cfg env st = (false, st, false) := by
    unfold execute_distribution
    rcases hcap with hcap | hcap
    · rw [if_pos hcap]
    · by_cases h1 : (cfg.max_distributions_per_hour : Int) ≤ st.distributions_this_hour
      · rw [if_pos h1]
      · rw [if_neg h1, if_pos hcap]
  cases hr : env.raises <;>
    simp only [run_once, hd, hh, hstop, hready, hexec, hr, Bool.false_eq_true,
      if_false, if_true, Bool.true_eq_false] <;>
    split_ifs <;>
    simp

/-- C7 amended, evaluated on a concrete capped same-hour cycle. -/
theorem c7_cap_skip_frame_witness :
    (run_once defaultMonitorConfig same_hour_env capped_state).dist_attempted = false ∧
    (run_once defaultMonitorConfig same_hour_env capped_state).state.distributions_this_hour =
      capped_state.distributions_this_hour ∧
    (run_once defaultMonitorConfig same_hour_env capped_state).state.distributions_today =
      capped_state.distributions_today ∧
    (run_once defaultMonitorConfig same_hour_env capped_state).state.total_distributions =
      capped_state.total_distributions ∧
    (run_once defaultMonitorConfig same_hour_env capped_state).state.last_distribution =
      capped_state.last_distribution :=
  c7_cap_skip_frame defaultMonitorConfig same_hour_env capped_state rfl rfl rfl rfl
    (Or.inl (by decide))

/-- C10.  Starting from any state with a non-negative error counter,
run_once preserves non-negativity: the per-cycle decay clamps at zero
via max(0, errors_count - 1) and every other mutation increments; the
default initial state sets the counter to 0. -/
theorem c10_errors_count_nonneg (cfg : MonitorConfig) (env : CycleEnv) (st : MonitorState)
    (h : 0 ≤ st.errors_count) :
    0 ≤ (run_once cfg env st).state.errors_count ∧ default_state.errors_count = 0 := by
  refine ⟨?_, rfl⟩
  have h2 : 0 ≤ (reset_hourly_counters env.currentHour
      (reset_daily_counters env.currentDate st)).errors_count := by
    rw [reset_hourly_counters_errors, reset_daily_counters_errors]
    exact h
  set s2 := reset_hourly_counters env.currentHour (reset_daily_counters env.currentDate st)
    with hs2
  have hex := execute_distribution_errors_le cfg env s2
  simp only [run_once]
  rw [← hs2]
  split_ifs <;> simp <;> omega

/-- C10 evaluated at the default state with a stopped cycle. -/
theorem c10_errors_count_nonneg_witness :
    0 ≤ (run_once defaultMonitorConfig stopped_env default_state).state.errors_count ∧
    default_state.errors_count = 0 :=
  c10_errors_count_nonneg defaultMonitorConfig stopped_env default_state (by decide)

end Monitor
